import Mathlib

/-!
Verification of the OAuth2 provider domain model (`oauth2_provider/models.py`).

Strings are Lean `String`s; Python `str.rstrip`/`str.split` are modelled below.
Timestamps are integers; every time-dependent predicate takes the current time
`now` explicitly, standing for `timezone.now()`.
-/

namespace OAuth2

/-- Python `s.rstrip(c)` for a single-character argument: remove every trailing
occurrence of the character `c`. -/
def pyRstrip (s : String) (c : Char) : String :=
  ⟨(s.data.reverse.dropWhile (fun x => x == c)).reverse⟩

/-- Helper for Python `str.split()`: walk the characters, accumulating the current
(reversed) word, emitting a word at each whitespace run boundary. -/
def pyWordsAux : List Char → List Char → List (List Char)
  | [], acc => if acc.isEmpty then [] else [acc.reverse]
  | c :: cs, acc =>
    if c.isWhitespace then
      if acc.isEmpty then pyWordsAux cs [] else acc.reverse :: pyWordsAux cs []
    else pyWordsAux cs (c :: acc)

/-- Python `s.split()` with no argument: split on runs of whitespace, producing
no empty words. -/
def pySplit (s : String) : List String :=
  (pyWordsAux s.data []).map String.mk

/-- Model of the `Application` Django model: a registered OAuth2 client.  The
field `user` is an opaque reference into the external principal store. -/
structure Application where
  client_id : String
  user : Nat
  redirect_uris : String
  client_type : String
  authorization_grant_type : String
  client_secret : String
  name : String

/-- Source `Application.default_redirect_uri`: `self.redirect_uris.split().pop(0)`.
Python `pop(0)` on an empty list raises; that failure is `none` here. -/
def Application.default_redirect_uri (app : Application) : Option String :=
  (pySplit app.redirect_uris).head?

/-- Source `Application.redirect_uri_allowed`: `uri = uri.rstrip("/")` followed by
`return uri in self.redirect_uris.split()`. -/
def Application.redirect_uri_allowed (app : Application) (uri : String) : Bool :=
  (pySplit app.redirect_uris).contains (pyRstrip uri '/')

/-- Model of the `Grant` Django model: an authorization code bound to an
application; `application` is a foreign-key reference by id. -/
structure Grant where
  user : Nat
  code : String
  application : Nat
  expires : Int
  redirect_uri : String
  scope : String

/-- Source `Grant.is_expired`: `timezone.now() >= self.expires`. -/
def Grant.is_expired (g : Grant) (now : Int) : Bool :=
  now ≥ g.expires

/-- Source `Grant.redirect_uri_allowed`: `uri == self.redirect_uri.rstrip("/")`. -/
def Grant.redirect_uri_allowed (g : Grant) (uri : String) : Bool :=
  uri == pyRstrip g.redirect_uri '/'

/-- Model of the `AccessToken` Django model. -/
structure AccessToken where
  user : Nat
  token : String
  application : Nat
  expires : Int
  scope : String

/-- Source `AccessToken.is_exired` (sic): `timezone.now() >= self.expires`. -/
def AccessToken.is_exired (t : AccessToken) (now : Int) : Bool :=
  now ≥ t.expires

/-- Source `AccessToken.allow_scopes`: `if not scopes: return True`, then
`set(scopes).issubset(set(self.scope.split()))`.  The argument is `none` when
absent (`scopes=None`); a `some` list (elements may repeat) stands for the
passed collection, and set-subset is element-wise membership. -/
def AccessToken.allow_scopes (t : AccessToken) (scopes : Option (List String)) : Bool :=
  match scopes with
  | none => true
  | some s =>
    if s.isEmpty then true
    else s.all (fun x => (pySplit t.scope).contains x)

/-- Source `AccessToken.is_valid`: `not self.is_exired() and self.allow_scopes(scopes)`. -/
def AccessToken.is_valid (t : AccessToken) (scopes : Option (List String)) (now : Int) : Bool :=
  !(t.is_exired now) && t.allow_scopes scopes

/-- Spec-words reading used for comparison: strip a single trailing slash
(only one, and only if present). -/
def stripOneTrailingSlash (s : String) : String :=
  match s.data.reverse with
  | '/' :: rest => ⟨rest.reverse⟩
  | _ => s

/-- Spec-words reading of `Application.redirect_uri_allowed` for comparison:
strip a single trailing slash from the query URI and compare it against each
registered entry with its trailing slash also stripped. -/
def Application.redirect_uri_allowed_spec (app : Application) (uri : String) : Bool :=
  ((pySplit app.redirect_uris).map stripOneTrailingSlash).contains (stripOneTrailingSlash uri)

/-- Spec-words reading of `Grant.redirect_uri_allowed` for comparison: the
mismatch condition is `uri.rstrip("/") != grant.redirect_uri`, stripping the
query URI and leaving the stored one unchanged. -/
def Grant.redirect_uri_allowed_spec (g : Grant) (uri : String) : Bool :=
  pyRstrip uri '/' == g.redirect_uri

/-- Error outcomes of the grant-exchange operation described by the spec. -/
inductive ExchangeError where
  | GrantNotFound
  | GrantExpired
  | RedirectURIMismatch

/-- Modelled from the spec: the Grant Manager's `exchange`/`consume` operation is
not in `src/` (only the `Grant` entity is).  Per the spec, exchange looks the
grant up by `code` (`GrantNotFound` if absent), fails `GrantExpired` if the
grant is expired, fails `RedirectURIMismatch` if the redirect-URI check fails,
and otherwise returns the grant while consuming it with a single conditional
delete keyed on the code.  The store is a list of grants; expiry and the
redirect check are the entity predicates from the source. -/
def exchange (store : List Grant) (code uri : String) (now : Int) :
    Except ExchangeError (Grant × List Grant) :=
  match store.find? (fun g => g.code == code) with
  | none => .error .GrantNotFound
  | some g =>
    if g.is_expired now then .error .GrantExpired
    else if g.redirect_uri_allowed uri then
      .ok (g, store.filter (fun g2 => !(g2.code == code)))
    else .error .RedirectURIMismatch

/-- Concrete application whose registered redirect URI carries a trailing slash. -/
def appC1 : Application :=
  { client_id := "id1", user := 1, redirect_uris := "https://x.test/cb/",
    client_type := "confidential", authorization_grant_type := "authorization-code",
    client_secret := "s1", name := "app-one" }

/-- Concrete application with two registered redirect URIs. -/
def appC6 : Application :=
  { client_id := "id6", user := 1, redirect_uris := "https://a.test/cb https://b.test/cb",
    client_type := "confidential", authorization_grant_type := "authorization-code",
    client_secret := "s6", name := "app-six" }

/-- Concrete grant bound to a slash-free redirect URI. -/
def grantC2 : Grant :=
  { user := 1, code := "c2", application := 1, expires := 100,
    redirect_uri := "https://x.test/cb", scope := "read" }

/-- Concrete grant used to exercise the exchange operation. -/
def grantC8 : Grant :=
  { user := 1, code := "c8", application := 1, expires := 100,
    redirect_uri := "https://a.test/cb", scope := "read" }

/-- Concrete access token granted the scopes `read` and `write`. -/
def tok1 : AccessToken :=
  { user := 1, token := "t1", application := 1, expires := 100, scope := "read write" }

theorem contains_iff (l : List String) (a : String) : l.contains a = true ↔ a ∈ l :=
  List.elem_iff

theorem allow_scopes_some_iff (t : AccessToken) (s : List String) :
    t.allow_scopes (some s) = true ↔ ∀ x ∈ s, x ∈ pySplit t.scope := by
  unfold AccessToken.allow_scopes
  cases s with
  | nil => simp
  | cons a l => simp [List.all_eq_true, contains_iff]

theorem find?_filter_ne_code (store : List Grant) (code : String) :
    (store.filter (fun g2 => !(g2.code == code))).find?
      (fun g2 => g2.code == code) = none := by
  rw [List.find?_eq_none]
  intro x hx
  have hx2 := (List.mem_filter.mp hx).2
  simp at hx2 ⊢
  exact hx2

theorem pyRstrip_append_slash (s : String) : pyRstrip (s ++ "/") '/' = pyRstrip s '/' := by
  unfold pyRstrip
  rw [String.data_append]
  congr 1
  simp [List.dropWhile]

/-- C1 counterexample: with a registered entry that itself ends in `/`, the code
rejects the exact registered URI while the claim's reading (both sides stripped
of one trailing slash) accepts it, so the claimed equivalence fails. -/
theorem claim1_counterexample :
    ¬ ((appC1.redirect_uri_allowed "https://x.test/cb/" = true) ↔
       (appC1.redirect_uri_allowed_spec "https://x.test/cb/" = true)) := by
  decide

/-- C1 (amended): `Application.redirect_uri_allowed app uri` is true iff `uri`
with all trailing `/` characters stripped is exactly string-equal to some entry
of the registered `redirect_uris` list taken verbatim (registered entries are
not slash-stripped). -/
theorem claim1_theorem (app : Application) (uri : String) :
    app.redirect_uri_allowed uri = true ↔
      ∃ entry ∈ pySplit app.redirect_uris, entry = pyRstrip uri '/' := by
  unfold Application.redirect_uri_allowed
  rw [contains_iff]
  constructor
  · intro h
    exact ⟨_, h, rfl⟩
  · rintro ⟨e, he, rfl⟩
    exact he

/-- C2 counterexample: for a stored URI without a trailing slash and a query URI
with one, the code (which strips the stored URI) rejects while the claim's
reading (which strips the query URI) accepts, so the claimed equivalence fails. -/
theorem claim2_counterexample :
    ¬ ((grantC2.redirect_uri_allowed "https://x.test/cb/" = true) ↔
       (grantC2.redirect_uri_allowed_spec "https://x.test/cb/" = true)) := by
  decide

/-- C2 (amended): the grant-level redirect-URI check succeeds iff the query
`uri`, unchanged, equals `g.redirect_uri` with its trailing `/` characters
stripped — the stored URI is the one being stripped, not the query URI. -/
theorem claim2_theorem (g : Grant) (uri : String) :
    g.redirect_uri_allowed uri = true ↔ uri = pyRstrip g.redirect_uri '/' := by
  unfold Grant.redirect_uri_allowed
  simp

/-- C3: `AccessToken.is_valid t scopes now` is true iff `t` is not expired at
`now` and `allow_scopes` accepts the requested scopes. -/
theorem claim3_theorem (t : AccessToken) (scopes : Option (List String)) (now : Int) :
    t.is_valid scopes now = true ↔
      (t.is_exired now = false ∧ t.allow_scopes scopes = true) := by
  unfold AccessToken.is_valid
  cases h : t.is_exired now <;> simp [h]

/-- C4: the expiry boundary is inclusive — an entity whose `expires` equals the
current time is already expired at that instant: the grant reports expired, the
token reports expired, and the token is not valid for any scope request. -/
theorem claim4_theorem (g : Grant) (t : AccessToken) (scopes : Option (List String))
    (now : Int) (hg : g.expires = now) (ht : t.expires = now) :
    g.is_expired now = true ∧ t.is_exired now = true ∧ t.is_valid scopes now = false := by
  unfold Grant.is_expired AccessToken.is_valid AccessToken.is_exired
  simp [hg, ht]

/-- C4 witness at a concrete grant and token expiring exactly at time 100. -/
theorem claim4_witness :
    grantC2.is_expired 100 = true ∧ tok1.is_exired 100 = true ∧
      tok1.is_valid none 100 = false :=
  claim4_theorem grantC2 tok1 none 100 rfl rfl

/-- C5: `allow_scopes` accepts an absent scope collection, and accepts a present
one iff every requested scope occurs in the whitespace-split granted scope (the
empty request is the vacuous case); concretely, the token granted
`"read write"` accepts `[]` and `["read"]` and rejects `["admin"]`. -/
theorem claim5_theorem :
    (∀ (t : AccessToken), t.allow_scopes none = true ∧
      ∀ s : List String, (t.allow_scopes (some s) = true ↔ ∀ x ∈ s, x ∈ pySplit t.scope)) ∧
    (tok1.allow_scopes (some []) = true ∧ tok1.allow_scopes (some ["admin"]) = false ∧
      tok1.allow_scopes (some ["read"]) = true) :=
  ⟨fun t => ⟨rfl, fun s => allow_scopes_some_iff t s⟩, by decide, by decide, by decide⟩

/-- C5 witness at a concrete token: the absent scope collection is accepted. -/
theorem claim5_witness : tok1.allow_scopes none = true :=
  (claim5_theorem.1 tok1).1

/-- C6: `default_redirect_uri` yields the first element of the split
`redirect_uris` list when that list is non-empty, and fails (the `NoRedirectURI`
outcome, `none` here) when the list is empty. -/
theorem claim6_theorem (app : Application) :
    (∀ x xs, pySplit app.redirect_uris = x :: xs → app.default_redirect_uri = some x) ∧
    (pySplit app.redirect_uris = [] → app.default_redirect_uri = none) := by
  unfold Application.default_redirect_uri
  exact ⟨fun x xs h => by rw [h]; rfl, fun h => by rw [h]; rfl⟩

/-- C6 witness: on the application registered with two URIs, the default
redirect URI is the first one. -/
theorem claim6_witness : appC6.default_redirect_uri = some "https://a.test/cb" :=
  (claim6_theorem appC6).1 "https://a.test/cb" ["https://b.test/cb"] rfl

/-- C7: the three boolean-returning predicates are total — on every input each
of `redirect_uri_allowed`, `is_valid` and `allow_scopes` returns a boolean
(`true` or `false`), never a failure. -/
theorem claim7_theorem (app : Application) (uri : String) (t : AccessToken)
    (scopes : Option (List String)) (now : Int) :
    (app.redirect_uri_allowed uri = true ∨ app.redirect_uri_allowed uri = false) ∧
    (t.is_valid scopes now = true ∨ t.is_valid scopes now = false) ∧
    (t.allow_scopes scopes = true ∨ t.allow_scopes scopes = false) :=
  ⟨Bool.eq_false_or_eq_true _, Bool.eq_false_or_eq_true _, Bool.eq_false_or_eq_true _⟩

/-- C8: grant exchange is exactly-once — when an exchange succeeds, any later
exchange against the resulting store with the same code fails `GrantNotFound`,
whatever redirect URI or time is presented. -/
theorem claim8_theorem (store : List Grant) (code uri : String) (now : Int) (g : Grant)
    (store2 : List Grant) (uri2 : String) (now2 : Int)
    (h : exchange store code uri now = .ok (g, store2)) :
    exchange store2 code uri2 now2 = .error .GrantNotFound := by
  unfold exchange at h ⊢
  split at h
  · exact Except.noConfusion h
  · split_ifs at h with h1 h2
    all_goals
      simp only [Except.ok.injEq, Prod.mk.injEq] at h
      obtain ⟨hg1, hs⟩ := h
      subst hs
      rw [find?_filter_ne_code]

/-- C8 witness: after the concrete grant `grantC8` is exchanged successfully
(emptying the store), a second exchange with the same code is `GrantNotFound`. -/
theorem claim8_witness :
    exchange [] "c8" "https://a.test/cb" 0 = .error .GrantNotFound :=
  claim8_theorem [grantC8] "c8" "https://a.test/cb" 0 grantC8 [] "https://a.test/cb" 0 rfl

/-- C9: `allow_scopes` is antitone in the requested collection — shrinking an
accepted request keeps it accepted. -/
theorem claim9_theorem (t : AccessToken) (r r2 : List String)
    (hsub : ∀ x ∈ r2, x ∈ r) (h : t.allow_scopes (some r) = true) :
    t.allow_scopes (some r2) = true := by
  rw [allow_scopes_some_iff] at h ⊢
  exact fun x hx => h x (hsub x hx)

/-- C9 witness: shrinking the accepted request `["read", "write"]` to `["read"]`
keeps it accepted by the token granted `"read write"`. -/
theorem claim9_witness : tok1.allow_scopes (some ["read"]) = true :=
  claim9_theorem tok1 ["read", "write"] ["read"] (by decide) (by decide)

/-- C10: `Application.redirect_uri_allowed` is invariant under appending a
trailing slash to the query URI, because the code strips every trailing slash. -/
theorem claim10_theorem (app : Application) (uri : String) :
    app.redirect_uri_allowed (uri ++ "/") = app.redirect_uri_allowed uri := by
  unfold Application.redirect_uri_allowed
  rw [pyRstrip_append_slash]

end OAuth2
